import Mathlib

/-!
Verification of the module prefetch-handler factory
(`src/www/core/components/course/services/prefetchfactory.js`).

The factory builds a template object (`modulePrefetchHandler`) of download
operations for one course module, and `createPrefetchHandler` clones it with a
new `component` tag.  The external collaborators (`$mmFilepool`, `$mmUtil`,
`$mmSite`) are modelled as records of abstract functions; effectful filepool
calls are reified as a `FilepoolCall` datatype, so that the orchestration
functions return the list of calls they would issue.  Promise rejection of the
per-file filepool queries is modelled with `Except`.
-/

namespace PrefetchFactory

/-- A content file as returned by the WS: `module.contents` entries and intro
files share this shape (`type`, `fileurl`, `timemodified`). -/
structure ContentFile where
  type : String
  fileurl : String
  timemodified : Int
  deriving DecidableEq

/-- A course module: `id`, ordered `contents`, and an HTML `description`
(the empty string models a missing/falsy description). -/
structure Module where
  id : Nat
  contents : List ContentFile
  description : String
  deriving DecidableEq

/-- A module instance (book, assign, ...) as passed to
`getIntroFilesFromInstance`: `introfiles` is `none` when the field is
undefined (the code distinguishes undefined from an empty list), and an empty
`intro` string models a falsy `instance.intro`. -/
structure MInstance where
  introfiles : Option (List ContentFile)
  intro : String
  deriving DecidableEq

/-- The `(revision, timemodified)` fingerprint returned by
`getRevisionAndTimemodified` (`timemod`/`revision` keys in the source). -/
structure Fingerprint where
  timemod : Int
  revision : Int
  deriving DecidableEq

/-- The `$mmSite` collaborator: `getId()` and `canDownloadFiles()`. -/
structure Site where
  id : String
  canDownloadFiles : Bool
  deriving DecidableEq

/-- The `$mmUtil` collaborator functions used by the handler. -/
structure Util where
  extractDownloadableFilesFromHtmlAsFakeFileObjects : String → List ContentFile
  sumFileSizes : List ContentFile → Int

/-- The `$mmFilepool` collaborator queries used by the handler.  The two
per-file promise-returning queries are modelled with `Except`: a rejected
promise is `Except.error`, carrying the rejection reason. -/
structure Filepool where
  getTimemodifiedFromFileList : List ContentFile → Int
  getRevisionFromFileList : List ContentFile → Int
  isFileDownloadingByUrl : String → String → Except String Unit
  getFileEventNameByUrl : String → String → Except String String
  getFilesSizeByComponent : String → String → Nat → Int

/-- Effectful `$mmFilepool` calls issued by the handler, reified as data so the
orchestration functions can return the exact list of calls they make. -/
inductive FilepoolCall where
  | addToQueueByUrl (siteId url component : String) (moduleId : Nat)
      (timemodified : Int)
  | downloadUrl (siteId url : String) (ignoreStale : Bool) (component : String)
      (moduleId : Nat) (timemodified : Int)
  | downloadPackage (siteId : String) (files : List ContentFile)
      (component : String) (moduleId : Nat) (revision timemod : Int)
      (dirPath : Option String)
  | prefetchPackage (siteId : String) (files : List ContentFile)
      (component : String) (moduleId : Nat) (revision timemod : Int)
      (dirPath : Option String)
  | invalidateFilesByComponent (siteId component : String) (moduleId : Nat)
  | removeFilesByComponent (siteId component : String) (moduleId : Nat)
  deriving DecidableEq

/-- `isFileDownloadable(file)`: true iff `file.type === 'file'`. -/
def isFileDownloadable (file : ContentFile) : Bool :=
  file.type == "file"

/-- `getContentDownloadableFiles(module)`: `angular.forEach` over
`module.contents`, pushing each content that `isFileDownloadable` accepts. -/
def getContentDownloadableFiles (module : Module) : List ContentFile :=
  module.contents.foldl
    (fun files content =>
      if isFileDownloadable content then files ++ [content] else files)
    []

/-- `getIntroFilesFromInstance(module, instance)`: an instance with a defined
`introfiles` list wins; else a truthy `instance.intro` is mined for files;
else a truthy `module.description` is mined; else the empty list. -/
def getIntroFilesFromInstance (util : Util) (module : Module)
    (inst : Option MInstance) : List ContentFile :=
  match inst with
  | some i =>
    match i.introfiles with
    | some fs => fs
    | none =>
      if i.intro != "" then
        util.extractDownloadableFilesFromHtmlAsFakeFileObjects i.intro
      else if module.description != "" then
        util.extractDownloadableFilesFromHtmlAsFakeFileObjects module.description
      else
        []
  | none =>
    if module.description != "" then
      util.extractDownloadableFilesFromHtmlAsFakeFileObjects module.description
    else
      []

/-- `getIntroFiles(module, courseId)`: delegates to
`getIntroFilesFromInstance(module)` with no instance. -/
def getIntroFiles (util : Util) (module : Module) (courseId : Nat) :
    List ContentFile :=
  getIntroFilesFromInstance util module none

/-- `getFiles(module, courseId)`: intro files concatenated with the
downloadable content files. -/
def getFiles (util : Util) (module : Module) (courseId : Nat) :
    List ContentFile :=
  getIntroFiles util module courseId ++ getContentDownloadableFiles module

/-- `getRevisionAndTimemodified(module, courseId, introFiles)`: uses the given
intro files (or computes them), appends ALL of `module.contents`, and derives
the fingerprint from that whole list via the filepool. -/
def getRevisionAndTimemodified (fp : Filepool) (util : Util) (module : Module)
    (courseId : Nat) (introFiles : Option (List ContentFile)) : Fingerprint :=
  let initial :=
    match introFiles with
    | some fs => fs
    | none => getIntroFiles util module courseId
  let files := initial ++ module.contents
  { timemod := fp.getTimemodifiedFromFileList files
    revision := fp.getRevisionFromFileList files }

/-- `getRevision(module, courseId)`: projection of the fingerprint. -/
def getRevision (fp : Filepool) (util : Util) (module : Module)
    (courseId : Nat) : Int :=
  (getRevisionAndTimemodified fp util module courseId none).revision

/-- `getTimemodified(module, courseId)`: projection of the fingerprint. -/
def getTimemodified (fp : Filepool) (util : Util) (module : Module)
    (courseId : Nat) : Int :=
  (getRevisionAndTimemodified fp util module courseId none).timemod

/-- `downloadOrPrefetch(module, courseId, prefetch, dirPath)`: resolves intro
files, computes the fingerprint, then with a `dirPath` issues one per-intro-file
immediate call (queue or download) plus one package call confined to `dirPath`
for the content files; with no `dirPath` issues a single package call over
intro files concatenated with content files.  `component` is the dynamically
bound `this.component`. -/
def downloadOrPrefetch (fp : Filepool) (util : Util) (site : Site)
    (component : String) (module : Module) (courseId : Nat) (prefetch : Bool)
    (dirPath : Option String) : List FilepoolCall :=
  let siteId := site.id
  let introFiles := getIntroFiles util module courseId
  let data := getRevisionAndTimemodified fp util module courseId (some introFiles)
  let contentFiles := getContentDownloadableFiles module
  match dirPath with
  | some dp =>
    (introFiles.map fun file =>
      if prefetch then
        FilepoolCall.addToQueueByUrl siteId file.fileurl component module.id
          file.timemodified
      else
        FilepoolCall.downloadUrl siteId file.fileurl false component module.id
          file.timemodified)
    ++ [if prefetch then
          FilepoolCall.prefetchPackage siteId contentFiles component module.id
            data.revision data.timemod (some dp)
        else
          FilepoolCall.downloadPackage siteId contentFiles component module.id
            data.revision data.timemod (some dp)]
  | none =>
    let files := introFiles ++ contentFiles
    [if prefetch then
        FilepoolCall.prefetchPackage siteId files component module.id
          data.revision data.timemod none
      else
        FilepoolCall.downloadPackage siteId files component module.id
          data.revision data.timemod none]

/-- `download(module, courseId)`: `downloadOrPrefetch` with `prefetch` false
and no `dirPath`. -/
def download (fp : Filepool) (util : Util) (site : Site) (component : String)
    (module : Module) (courseId : Nat) : List FilepoolCall :=
  downloadOrPrefetch fp util site component module courseId false none

/-- `prefetchContent(module, courseId, single)`: `downloadOrPrefetch` with
`prefetch` true and no `dirPath`; `single` is ignored. -/
def prefetchContent (fp : Filepool) (util : Util) (site : Site)
    (component : String) (module : Module) (courseId : Nat) (single : Bool) :
    List FilepoolCall :=
  downloadOrPrefetch fp util site component module courseId true none

/-- `getDownloadSize(module, courseId)`: sum of the sizes of `getFiles`. -/
def getDownloadSize (util : Util) (module : Module) (courseId : Nat) : Int :=
  util.sumFileSizes (getFiles util module courseId)

/-- `getDownloadedSize(module, courseId)`: filepool size query scoped by the
component and `module.id`. -/
def getDownloadedSize (fp : Filepool) (site : Site) (component : String)
    (module : Module) (courseId : Nat) : Int :=
  fp.getFilesSizeByComponent site.id component module.id

/-- `getDownloadingFilesEventNames(module)`: for each downloadable content, the
in-flight check then the event-name lookup; either failure is caught and the
file skipped; `$q.all` then resolves with the accumulated names. -/
def getDownloadingFilesEventNames (fp : Filepool) (site : Site)
    (module : Module) : List String :=
  module.contents.foldl
    (fun eventNames content =>
      if isFileDownloadable content then
        match fp.isFileDownloadingByUrl site.id content.fileurl with
        | Except.ok _ =>
          match fp.getFileEventNameByUrl site.id content.fileurl with
          | Except.ok eventName => eventNames ++ [eventName]
          | Except.error _ => eventNames
        | Except.error _ => eventNames
      else eventNames)
    []

/-- `getFileEventNames(module)`: event-name lookup for every downloadable
content; `$q.all` rejects if any lookup rejects. -/
def getFileEventNames (fp : Filepool) (site : Site) (module : Module) :
    Except String (List String) :=
  (module.contents.filter isFileDownloadable).mapM
    (fun content => fp.getFileEventNameByUrl site.id content.fileurl)

/-- `invalidateContent(moduleId)`: filepool invalidation scoped by the
component and module id. -/
def invalidateContent (site : Site) (component : String) (moduleId : Nat) :
    FilepoolCall :=
  FilepoolCall.invalidateFilesByComponent site.id component moduleId

/-- `removeFiles(module, courseId)`: filepool removal scoped by the component
and `module.id`. -/
def removeFiles (site : Site) (component : String) (module : Module)
    (courseId : Nat) : FilepoolCall :=
  FilepoolCall.removeFilesByComponent site.id component module.id

/-- `isDownloadable(module, courseId)`: `module.contents.length > 0`. -/
def isDownloadable (module : Module) (courseId : Nat) : Bool :=
  decide (module.contents.length > 0)

/-- `isEnabled()`: `$mmSite.canDownloadFiles()`. -/
def isEnabled (site : Site) : Bool :=
  site.canDownloadFiles

/-- A prefetch handler object: the `component` field plus one field per method
of the template.  Methods that read `this.component` take a `String` component
argument, making JavaScript's dynamic `this` binding explicit: an inherited
method is the same function value, applied to the child's own `component`. -/
structure PrefetchHandler where
  component : String
  download : Filepool → Util → Site → String → Module → Nat → List FilepoolCall
  downloadOrPrefetch :
    Filepool → Util → Site → String → Module → Nat → Bool → Option String →
      List FilepoolCall
  getContentDownloadableFiles : Module → List ContentFile
  getDownloadSize : Util → Module → Nat → Int
  getDownloadedSize : Filepool → Site → String → Module → Nat → Int
  getDownloadingFilesEventNames : Filepool → Site → Module → List String
  getFileEventNames : Filepool → Site → Module → Except String (List String)
  getFiles : Util → Module → Nat → List ContentFile
  getIntroFiles : Util → Module → Nat → List ContentFile
  getIntroFilesFromInstance : Util → Module → Option MInstance → List ContentFile
  getRevision : Filepool → Util → Module → Nat → Int
  getRevisionAndTimemodified :
    Filepool → Util → Module → Nat → Option (List ContentFile) → Fingerprint
  getTimemodified : Filepool → Util → Module → Nat → Int
  invalidateContent : Site → String → Nat → FilepoolCall
  isDownloadable : Module → Nat → Bool
  isEnabled : Site → Bool
  isFileDownloadable : ContentFile → Bool
  prefetchContent :
    Filepool → Util → Site → String → Module → Nat → Bool → List FilepoolCall
  removeFiles : Site → String → Module → Nat → FilepoolCall

/-- The shared template object: `component` is `'core_res'` and every method
field holds the corresponding template function. -/
def modulePrefetchHandler : PrefetchHandler where
  component := "core_res"
  download := download
  downloadOrPrefetch := downloadOrPrefetch
  getContentDownloadableFiles := getContentDownloadableFiles
  getDownloadSize := getDownloadSize
  getDownloadedSize := getDownloadedSize
  getDownloadingFilesEventNames := getDownloadingFilesEventNames
  getFileEventNames := getFileEventNames
  getFiles := getFiles
  getIntroFiles := getIntroFiles
  getIntroFilesFromInstance := getIntroFilesFromInstance
  getRevision := getRevision
  getRevisionAndTimemodified := getRevisionAndTimemodified
  getTimemodified := getTimemodified
  invalidateContent := invalidateContent
  isDownloadable := isDownloadable
  isEnabled := isEnabled
  isFileDownloadable := isFileDownloadable
  prefetchContent := prefetchContent
  removeFiles := removeFiles

/-- `createPrefetchHandler(component)`: `Object.create(modulePrefetchHandler)`
followed by `child.component = component` — the child inherits every method
unchanged and only `component` differs. -/
def createPrefetchHandler (component : String) : PrefetchHandler :=
  { modulePrefetchHandler with component := component }

/-- The outcome of one iteration of the `getDownloadingFilesEventNames` loop
for a single content entry: `some eventName` when the entry is downloadable and
both filepool queries resolve, `none` when it is skipped (not downloadable, or
either query rejects, which the `.catch` swallows). -/
def downloadingFileEvent (fp : Filepool) (site : Site) (content : ContentFile) :
    Option String :=
  if isFileDownloadable content then
    match fp.isFileDownloadingByUrl site.id content.fileurl with
    | Except.ok _ =>
      match fp.getFileEventNameByUrl site.id content.fileurl with
      | Except.ok eventName => some eventName
      | Except.error _ => none
    | Except.error _ => none
  else none

/-- Concrete `$mmUtil` fixture: HTML extraction yields one fake file per
non-empty HTML string, whose url is the HTML itself. -/
def utilFx : Util :=
  ⟨fun html => if html == "" then [] else [⟨"file", html, 3⟩],
   fun fs => fs.length⟩

/-- Concrete `$mmFilepool` fixture: timemodified is the max over the list,
revision is the list length, the in-flight check rejects exactly for url `b`,
and the event-name lookup rejects exactly for url `bad` (otherwise the event
name is the url itself). -/
def fpFx : Filepool :=
  ⟨fun fs => fs.foldl (fun a f => max a f.timemodified) 0,
   fun fs => fs.length,
   fun _ url => if url == "b" then Except.error "check failed" else Except.ok (),
   fun _ url => if url == "bad" then Except.error "no event" else Except.ok url,
   fun _ _ _ => 0⟩

/-- Concrete `$mmSite` fixture. -/
def siteFx : Site := ⟨"site1", true⟩

/-- Concrete module fixture: one downloadable content file and a non-empty
description. -/
def m3 : Module := ⟨7, [⟨"file", "a", 5⟩], "desc"⟩

lemma foldl_push_eq_filter {α : Type} (p : α → Bool) (l : List α)
    (acc : List α) :
    l.foldl (fun r a => if p a then r ++ [a] else r) acc = acc ++ l.filter p := by
  induction l generalizing acc with
  | nil => simp
  | cons a l ih =>
    cases hp : p a <;>
      simp [List.foldl_cons, List.filter_cons, hp, ih]

lemma foldl_accum_eq_filterMap {α β : Type} (f : α → Option β) (l : List α)
    (acc : List β) :
    l.foldl
      (fun r a => match f a with | some b => r ++ [b] | none => r) acc =
      acc ++ l.filterMap f := by
  induction l generalizing acc with
  | nil => simp
  | cons a l ih =>
    cases hf : f a <;>
      simp [List.foldl_cons, List.filterMap_cons, hf, ih]

lemma getContentDownloadableFiles_eq_filter (m : Module) :
    getContentDownloadableFiles m = m.contents.filter isFileDownloadable := by
  unfold getContentDownloadableFiles
  rw [foldl_push_eq_filter]
  simp

lemma downloadingEvents_foldl (fp : Filepool) (site : Site) :
    ∀ (l : List ContentFile) (acc : List String),
    l.foldl
      (fun eventNames content =>
        if isFileDownloadable content then
          match fp.isFileDownloadingByUrl site.id content.fileurl with
          | Except.ok _ =>
            match fp.getFileEventNameByUrl site.id content.fileurl with
            | Except.ok eventName => eventNames ++ [eventName]
            | Except.error _ => eventNames
          | Except.error _ => eventNames
        else eventNames) acc =
      acc ++ l.filterMap (downloadingFileEvent fp site) := by
  intro l
  induction l with
  | nil => intro acc; simp
  | cons a l ih =>
    intro acc
    rw [List.foldl_cons, List.filterMap_cons]
    by_cases hd : isFileDownloadable a
    · cases hin : fp.isFileDownloadingByUrl site.id a.fileurl with
      | ok u =>
        cases hev : fp.getFileEventNameByUrl site.id a.fileurl with
        | ok e => simp [downloadingFileEvent, hd, hin, hev, ih]
        | error e => simp [downloadingFileEvent, hd, hin, hev, ih]
      | error e => simp [downloadingFileEvent, hd, hin, ih]
    · simp [downloadingFileEvent, hd, ih]

lemma getDownloadingFilesEventNames_eq_filterMap (fp : Filepool) (site : Site)
    (m : Module) :
    getDownloadingFilesEventNames fp site m =
      m.contents.filterMap (downloadingFileEvent fp site) := by
  have h := downloadingEvents_foldl fp site m.contents []
  simpa using h

lemma getDownloadingFilesEventNames_skip (fp : Filepool) (site : Site)
    (m : Module) (pre post : List ContentFile) (c : ContentFile)
    (hc : m.contents = pre ++ c :: post)
    (hnone : downloadingFileEvent fp site c = none) :
    getDownloadingFilesEventNames fp site m =
      getDownloadingFilesEventNames fp site ⟨m.id, pre ++ post, m.description⟩ := by
  rw [getDownloadingFilesEventNames_eq_filterMap,
    getDownloadingFilesEventNames_eq_filterMap]
  show m.contents.filterMap _ = (pre ++ post).filterMap _
  rw [hc]
  simp [List.filterMap_append, List.filterMap_cons, hnone]

/-- Claim C1: `getRevisionAndTimemodified` builds its file list as the intro
files (the `introFiles` argument when supplied, otherwise `getIntroFiles`)
concatenated with ALL of `module.contents`, and returns exactly the pair of
the filepool's timemodified and revision derivations over that whole list. -/
theorem getRevisionAndTimemodified_whole_list :
  ∀ (fp : Filepool) (util : Util) (m : Module) (courseId : Nat)
    (introFiles : Option (List ContentFile)),
    getRevisionAndTimemodified fp util m courseId introFiles =
      { timemod := fp.getTimemodifiedFromFileList
          (introFiles.getD (getIntroFiles util m courseId) ++ m.contents)
        revision := fp.getRevisionFromFileList
          (introFiles.getD (getIntroFiles util m courseId) ++ m.contents) } := by
  intro fp util m courseId introFiles
  cases introFiles <;> rfl

/-- Claim C2: intro-file resolution priority — a supplied instance with a
defined `introfiles` list wins verbatim; else a non-empty `instance.intro` is
mined; else a non-empty `module.description` is mined; else the empty list. -/
theorem getIntroFilesFromInstance_priority :
  ∀ (util : Util) (m : Module),
    (∀ (i : MInstance) (fs : List ContentFile), i.introfiles = some fs →
      getIntroFilesFromInstance util m (some i) = fs) ∧
    (∀ i : MInstance, i.introfiles = none → i.intro ≠ "" →
      getIntroFilesFromInstance util m (some i) =
        util.extractDownloadableFilesFromHtmlAsFakeFileObjects i.intro) ∧
    (∀ oi : Option MInstance,
      (∀ i, oi = some i → i.introfiles = none ∧ i.intro = "") →
      m.description ≠ "" →
      getIntroFilesFromInstance util m oi =
        util.extractDownloadableFilesFromHtmlAsFakeFileObjects m.description) ∧
    (∀ oi : Option MInstance,
      (∀ i, oi = some i → i.introfiles = none ∧ i.intro = "") →
      m.description = "" →
      getIntroFilesFromInstance util m oi = []) := by
  intro util m
  refine ⟨?_, ?_, ?_, ?_⟩
  · intro i fs h
    simp [getIntroFilesFromInstance, h]
  · intro i h1 h2
    simp [getIntroFilesFromInstance, h1, h2]
  · intro oi h hdesc
    cases oi with
    | none => simp [getIntroFilesFromInstance, hdesc]
    | some i =>
      obtain ⟨h1, h2⟩ := h i rfl
      simp [getIntroFilesFromInstance, h1, h2, hdesc]
  · intro oi h hdesc
    cases oi with
    | none => simp [getIntroFilesFromInstance, hdesc]
    | some i =>
      obtain ⟨h1, h2⟩ := h i rfl
      simp [getIntroFilesFromInstance, h1, h2, hdesc]

/-- Witness for C2: an instance whose `introfiles` is defined is returned
verbatim even though both its `intro` and the module description are
non-empty. -/
theorem getIntroFilesFromInstance_priority_witness :
  getIntroFilesFromInstance utilFx ⟨7, [], "desc"⟩
      (some ⟨some [⟨"file", "i", 2⟩], "intro html"⟩) = [⟨"file", "i", 2⟩] :=
  (getIntroFilesFromInstance_priority utilFx ⟨7, [], "desc"⟩).1
    ⟨some [⟨"file", "i", 2⟩], "intro html"⟩ [⟨"file", "i", 2⟩] rfl

/-- Claim C6: `getFiles` is exactly intro files concatenated with the
downloadable content files, in that order, with no de-duplication (the lengths
add up even when urls repeat). -/
theorem getFiles_concat_no_dedup :
  ∀ (util : Util) (m : Module) (courseId : Nat),
    getFiles util m courseId =
      getIntroFiles util m courseId ++ getContentDownloadableFiles m ∧
    (getFiles util m courseId).length =
      (getIntroFiles util m courseId).length +
        (getContentDownloadableFiles m).length := by
  intro util m courseId
  exact ⟨rfl, by simp [getFiles]⟩

/-- Claim C7: the fingerprint is the same whether the intro files are passed
explicitly or omitted and recomputed, provided the explicit list equals what
`getIntroFiles` produces. -/
theorem getRevisionAndTimemodified_explicit_intro_invariant :
  ∀ (fp : Filepool) (util : Util) (m : Module) (courseId : Nat)
    (fs : List ContentFile),
    fs = getIntroFiles util m courseId →
    getRevisionAndTimemodified fp util m courseId (some fs) =
      getRevisionAndTimemodified fp util m courseId none := by
  intro fp util m courseId fs h
  subst h
  rfl

/-- Witness for C7 at a concrete module, filepool and util. -/
theorem getRevisionAndTimemodified_explicit_intro_invariant_witness :
  getRevisionAndTimemodified fpFx utilFx m3 1 (some (getIntroFiles utilFx m3 1)) =
    getRevisionAndTimemodified fpFx utilFx m3 1 none :=
  getRevisionAndTimemodified_explicit_intro_invariant fpFx utilFx m3 1
    (getIntroFiles utilFx m3 1) rfl

/-- Claim C8: a module with empty `contents` is not downloadable; a module
with non-empty `contents` is downloadable, whatever the entry types are. -/
theorem isDownloadable_iff_contents_nonempty :
  ∀ (m : Module) (courseId : Nat),
    (m.contents = [] → isDownloadable m courseId = false) ∧
    (m.contents ≠ [] → isDownloadable m courseId = true) := by
  intro m courseId
  constructor
  · intro h
    simp [isDownloadable, h]
  · intro h
    simp [isDownloadable, List.length_pos, h]

/-- Witness for C8: a module whose only content entry is a non-file `url`
entry is still downloadable. -/
theorem isDownloadable_iff_contents_nonempty_witness :
  isDownloadable ⟨7, [⟨"url", "u", 1⟩], ""⟩ 1 = true :=
  (isDownloadable_iff_contents_nonempty ⟨7, [⟨"url", "u", 1⟩], ""⟩ 1).2
    (by decide)

/-- Claim C9: `isFileDownloadable` holds exactly for `type = "file"`, and
`getContentDownloadableFiles` is exactly the order-preserving filter of
`module.contents` through it. -/
theorem isFileDownloadable_type_and_content_filter :
  (∀ f : ContentFile, isFileDownloadable f = true ↔ f.type = "file") ∧
  (∀ m : Module,
    getContentDownloadableFiles m = m.contents.filter isFileDownloadable) := by
  constructor
  · intro f
    simp [isFileDownloadable]
  · intro m
    exact getContentDownloadableFiles_eq_filter m

/-- Content-file fixtures for the event-name scenarios. -/
def fileA : ContentFile := ⟨"file", "a", 1⟩

/-- Downloadable file whose in-flight check rejects under `fpFx`. -/
def fileB : ContentFile := ⟨"file", "b", 1⟩

/-- Downloadable file whose checks both succeed under `fpFx`. -/
def fileC : ContentFile := ⟨"file", "c", 1⟩

/-- Downloadable file whose in-flight check succeeds but whose event-name
lookup rejects under `fpFx`. -/
def fileBad : ContentFile := ⟨"file", "bad", 1⟩

/-- Module with three downloadable files, the middle one failing the in-flight
check under `fpFx`. -/
def m4 : Module := ⟨7, [fileA, fileB, fileC], ""⟩

/-- Module with three downloadable files, the middle one failing the
event-name lookup under `fpFx`. -/
def m10 : Module := ⟨7, [fileA, fileBad, fileC], ""⟩

/-- Claim C3 counterexample: at a concrete module with one intro file and one
content file, `download(module, courseId)` issues a SINGLE batched package
call carrying intro plus content files, not a per-intro-file download call
plus a content-only package call as the claim states. -/
theorem download_counterexample :
  download fpFx utilFx siteFx "comp" m3 1 =
      [FilepoolCall.downloadPackage "site1"
        [⟨"file", "desc", 3⟩, ⟨"file", "a", 5⟩] "comp" 7 2 5 none] ∧
    download fpFx utilFx siteFx "comp" m3 1 ≠
      [FilepoolCall.downloadUrl "site1" "desc" false "comp" 7 3,
       FilepoolCall.downloadPackage "site1" [⟨"file", "a", 5⟩] "comp" 7 2 5
         none] := by
  constructor
  · decide
  · decide

/-- Claim C3 (amended): with no `dirPath`, `download` and `prefetchContent`
issue a single package call over intro files concatenated with content files;
only when `downloadOrPrefetch` is given a `dirPath` does it issue per-intro-file
immediate (or queue) calls plus a content-only package call confined to
`dirPath`; all calls are scoped by the component and `module.id`, and
`prefetchContent` uses the queue variants of the same pipeline. -/
theorem downloadOrPrefetch_call_structure :
  ∀ (fp : Filepool) (util : Util) (site : Site) (component : String)
    (m : Module) (courseId : Nat) (single : Bool) (dp : String),
    download fp util site component m courseId =
      [FilepoolCall.downloadPackage site.id
        (getIntroFiles util m courseId ++ getContentDownloadableFiles m)
        component m.id
        (getRevisionAndTimemodified fp util m courseId none).revision
        (getRevisionAndTimemodified fp util m courseId none).timemod none] ∧
    prefetchContent fp util site component m courseId single =
      [FilepoolCall.prefetchPackage site.id
        (getIntroFiles util m courseId ++ getContentDownloadableFiles m)
        component m.id
        (getRevisionAndTimemodified fp util m courseId none).revision
        (getRevisionAndTimemodified fp util m courseId none).timemod none] ∧
    downloadOrPrefetch fp util site component m courseId false (some dp) =
      (getIntroFiles util m courseId).map (fun file =>
        FilepoolCall.downloadUrl site.id file.fileurl false component m.id
          file.timemodified)
      ++ [FilepoolCall.downloadPackage site.id (getContentDownloadableFiles m)
            component m.id
            (getRevisionAndTimemodified fp util m courseId none).revision
            (getRevisionAndTimemodified fp util m courseId none).timemod
            (some dp)] ∧
    downloadOrPrefetch fp util site component m courseId true (some dp) =
      (getIntroFiles util m courseId).map (fun file =>
        FilepoolCall.addToQueueByUrl site.id file.fileurl component m.id
          file.timemodified)
      ++ [FilepoolCall.prefetchPackage site.id (getContentDownloadableFiles m)
            component m.id
            (getRevisionAndTimemodified fp util m courseId none).revision
            (getRevisionAndTimemodified fp util m courseId none).timemod
            (some dp)] := by
  intro fp util site component m courseId single dp
  exact ⟨rfl, rfl, rfl, rfl⟩

/-- Claim C4: `getDownloadingFilesEventNames` resolves with exactly the event
names of the downloadable contents whose two checks succeed, and a file whose
in-flight check rejects is silently dropped — the aggregate equals the one for
the module without that file, with no error surfaced. -/
theorem getDownloadingFilesEventNames_inflight_failure_skipped :
  ∀ (fp : Filepool) (site : Site) (m : Module),
    getDownloadingFilesEventNames fp site m =
      m.contents.filterMap (downloadingFileEvent fp site) ∧
    (∀ (pre post : List ContentFile) (c : ContentFile) (err : String),
      m.contents = pre ++ c :: post →
      isFileDownloadable c = true →
      fp.isFileDownloadingByUrl site.id c.fileurl = Except.error err →
      getDownloadingFilesEventNames fp site m =
        getDownloadingFilesEventNames fp site
          ⟨m.id, pre ++ post, m.description⟩) := by
  intro fp site m
  refine ⟨getDownloadingFilesEventNames_eq_filterMap fp site m, ?_⟩
  intro pre post c err hc hd herr
  apply getDownloadingFilesEventNames_skip fp site m pre post c hc
  simp [downloadingFileEvent, hd, herr]

/-- Witness for C4: of three downloadable files, the middle one's in-flight
check rejects; the result is exactly the event names of the other two. -/
theorem getDownloadingFilesEventNames_inflight_failure_skipped_witness :
  (getDownloadingFilesEventNames fpFx siteFx m4 =
      getDownloadingFilesEventNames fpFx siteFx ⟨7, [fileA, fileC], ""⟩) ∧
    getDownloadingFilesEventNames fpFx siteFx m4 = ["a", "c"] :=
  ⟨(getDownloadingFilesEventNames_inflight_failure_skipped fpFx siteFx m4).2
      [fileA] [fileC] fileB "check failed" rfl rfl rfl,
    by decide⟩

/-- Claim C5: `createPrefetchHandler(component)` yields a handler whose
`component` is the given value and whose every method field is the template's
method unchanged. -/
theorem createPrefetchHandler_component_and_inherits :
  ∀ component : String,
    (createPrefetchHandler component).component = component ∧
    (createPrefetchHandler component).download =
      modulePrefetchHandler.download ∧
    (createPrefetchHandler component).downloadOrPrefetch =
      modulePrefetchHandler.downloadOrPrefetch ∧
    (createPrefetchHandler component).getContentDownloadableFiles =
      modulePrefetchHandler.getContentDownloadableFiles ∧
    (createPrefetchHandler component).getDownloadSize =
      modulePrefetchHandler.getDownloadSize ∧
    (createPrefetchHandler component).getDownloadedSize =
      modulePrefetchHandler.getDownloadedSize ∧
    (createPrefetchHandler component).getDownloadingFilesEventNames =
      modulePrefetchHandler.getDownloadingFilesEventNames ∧
    (createPrefetchHandler component).getFileEventNames =
      modulePrefetchHandler.getFileEventNames ∧
    (createPrefetchHandler component).getFiles =
      modulePrefetchHandler.getFiles ∧
    (createPrefetchHandler component).getIntroFiles =
      modulePrefetchHandler.getIntroFiles ∧
    (createPrefetchHandler component).getIntroFilesFromInstance =
      modulePrefetchHandler.getIntroFilesFromInstance ∧
    (createPrefetchHandler component).getRevision =
      modulePrefetchHandler.getRevision ∧
    (createPrefetchHandler component).getRevisionAndTimemodified =
      modulePrefetchHandler.getRevisionAndTimemodified ∧
    (createPrefetchHandler component).getTimemodified =
      modulePrefetchHandler.getTimemodified ∧
    (createPrefetchHandler component).invalidateContent =
      modulePrefetchHandler.invalidateContent ∧
    (createPrefetchHandler component).isDownloadable =
      modulePrefetchHandler.isDownloadable ∧
    (createPrefetchHandler component).isEnabled =
      modulePrefetchHandler.isEnabled ∧
    (createPrefetchHandler component).isFileDownloadable =
      modulePrefetchHandler.isFileDownloadable ∧
    (createPrefetchHandler component).prefetchContent =
      modulePrefetchHandler.prefetchContent ∧
    (createPrefetchHandler component).removeFiles =
      modulePrefetchHandler.removeFiles := by
  intro component
  exact ⟨rfl, rfl, rfl, rfl, rfl, rfl, rfl, rfl, rfl, rfl, rfl, rfl, rfl, rfl,
    rfl, rfl, rfl, rfl, rfl, rfl⟩

/-- Claim C10: a failure of the event-name lookup for a file whose in-flight
check succeeded is also swallowed — that file is dropped and the aggregate
equals the one for the module without it. -/
theorem getDownloadingFilesEventNames_eventname_failure_skipped :
  ∀ (fp : Filepool) (site : Site) (m : Module) (pre post : List ContentFile)
    (c : ContentFile) (err : String),
    m.contents = pre ++ c :: post →
    isFileDownloadable c = true →
    fp.isFileDownloadingByUrl site.id c.fileurl = Except.ok () →
    fp.getFileEventNameByUrl site.id c.fileurl = Except.error err →
    getDownloadingFilesEventNames fp site m =
      getDownloadingFilesEventNames fp site
        ⟨m.id, pre ++ post, m.description⟩ := by
  intro fp site m pre post c err hc hd hok herr
  apply getDownloadingFilesEventNames_skip fp site m pre post c hc
  simp [downloadingFileEvent, hd, hok, herr]

/-- Witness for C10: of three downloadable files, the middle one's in-flight
check succeeds but its event-name lookup rejects; the result is exactly the
event names of the other two. -/
theorem getDownloadingFilesEventNames_eventname_failure_skipped_witness :
  (getDownloadingFilesEventNames fpFx siteFx m10 =
      getDownloadingFilesEventNames fpFx siteFx ⟨7, [fileA, fileC], ""⟩) ∧
    getDownloadingFilesEventNames fpFx siteFx m10 = ["a", "c"] :=
  ⟨getDownloadingFilesEventNames_eventname_failure_skipped fpFx siteFx m10
      [fileA] [fileC] fileBad "no event" rfl rfl rfl rfl,
    by decide⟩

end PrefetchFactory
